import Mathlib

/-! Verification of the `dns query` pipeline of `nu_plugin_dns`
(`src/dns/mod.rs`, `Dns::query`).

The source is shallowly embedded: the dynamically-typed host values become a
closed inductive `Value`; fallible steps return `Except LabeledError _`;
external library primitives (the name parsers of `trust_dns_resolver::Name`,
the address parsers of `std::net`, the system-configuration reader, and the
connected client's query operation) are passed in as explicit function
parameters, so every theorem quantifies over their behaviour.  Submodules of
the crate that are not part of the core file (`serde`, `constants`, `client`)
are modelled from the specification and marked as such in doc comments.
-/

namespace DnsPlugin

/-- Source spans attached to host values (`nu_protocol::Span`), abstract. -/
abbrev Span := Nat

/-- `nu_plugin::LabeledError`: label, message, optional source span. -/
structure LabeledError where
  label : String
  msg : String
  span : Option Span
deriving DecidableEq

/-- The host's dynamically typed value (`nu_protocol::Value`), restricted to
the variants `Dns::query` distinguishes: `Nothing`, `String`, `List`,
`Binary`, and a catch-all for every other kind.  Each carries its span. -/
inductive Value where
  | nothing (span : Span)
  | string (val : String) (span : Span)
  | list (vals : List Value) (span : Span)
  | binary (val : List Nat) (span : Span)
  | other (span : Span)

/-- `Value::span()`. -/
def Value.span : Value → Span
  | .nothing s => s
  | .string _ s => s
  | .list _ s => s
  | .binary _ s => s
  | .other s => s

/-- Transport protocol (`trust_dns_resolver::config::Protocol`). -/
inductive Protocol where
  | udp
  | tcp
  | tls
  | https
deriving DecidableEq, Repr

/-- IP address (`std::net::IpAddr`), v4 or v6. -/
inductive IpAddr where
  | v4 (a b c d : Nat)
  | v6 (segs : List Nat)
deriving DecidableEq, Repr

/-- `std::net::SocketAddr`: address and port. -/
structure SocketAddr where
  ip : IpAddr
  port : Nat
deriving DecidableEq, Repr

/-- One nameserver entry of a resolver configuration
(`trust_dns_resolver::config::NameServerConfig`). -/
structure NameServerConfig where
  socket_addr : SocketAddr
  protocol : Protocol
deriving DecidableEq, Repr

instance : Inhabited NameServerConfig :=
  ⟨⟨⟨.v4 0 0 0 0, 0⟩, .udp⟩⟩

/-- A resolver configuration: its ordered nameserver list
(`ResolverConfig::name_servers()`). -/
structure ResolverConf where
  name_servers : List NameServerConfig
deriving DecidableEq, Repr

/-- Modelled from the spec: the built-in default resolver configuration
(`trust_dns_resolver::config::ResolverConfig::default()`, an external library
value the spec calls "a built-in default resolver configuration"); its first
nameserver is Google public DNS `8.8.8.8:53` over UDP, and the list is
non-empty. -/
def ResolverConf.default : ResolverConf :=
  ⟨[ ⟨⟨.v4 8 8 8 8, 53⟩, .udp⟩, ⟨⟨.v4 8 8 8 8, 53⟩, .tcp⟩,
     ⟨⟨.v4 8 8 4 4, 53⟩, .udp⟩, ⟨⟨.v4 8 8 4 4, 53⟩, .tcp⟩ ]⟩

instance : Inhabited ResolverConf := ⟨ResolverConf.default⟩

/-- Modelled from the spec: `constants::config::SERVER_PORT` (module
`constants` of the crate), "the fixed default DNS port (53)". -/
def SERVER_PORT : Nat := 53

/-- Input-source resolution (`Dns::query`, the `match input` at the top):
piped `Nothing` means use the positional arguments; any other piped value
with non-empty positional arguments is `AmbiguousInputError`; otherwise the
piped value is the single input element. -/
def resolveInput (arg_inputs : List Value) (input : Value) :
    Except LabeledError (List Value) :=
  match input with
  | .nothing _ => .ok arg_inputs
  | val =>
      if !arg_inputs.isEmpty then
        .error ⟨"AmbiguousInputError",
          "Input should either be positional args or piped, but not both",
          some val.span⟩
      else
        .ok [val]

/-- A domain name (`trust_dns_resolver::Name`): an ordered label sequence,
each label a byte string. -/
abbrev Name := List (List Nat)

/-- The element check inside the `Value::List` arm of the name match: each
element must be a `Value::Binary`, otherwise `InvalidNameError` at that
element's span; the binary payloads are collected in order. -/
def collectBinaryLabels : List Value → Except LabeledError (List (List Nat))
  | [] => .ok []
  | .binary bin_val _ :: rest =>
      (collectBinaryLabels rest).map (bin_val :: ·)
  | val :: _ =>
      .error ⟨"InvalidNameError", "Invalid input type for name",
        some val.span⟩

/-- One step of the name-parsing map in `Dns::query` (lines 58–94).
`from_utf8` and `from_labels` stand for the external library parsers
`Name::from_utf8` and `Name::from_labels` (`none` = parse error). -/
def parseName (from_utf8 : String → Option Name)
    (from_labels : List (List Nat) → Option Name) (v : Value) :
    Except LabeledError Name :=
  match v with
  | .string val span =>
      match from_utf8 val with
      | some n => .ok n
      | none => .error ⟨"InvalidNameError", "Error parsing name", some span⟩
  | .list vals span =>
      match collectBinaryLabels vals with
      | .error e => .error e
      | .ok labels =>
          match from_labels labels with
          | some n => .ok n
          | none =>
              .error ⟨"NameParseError", "Error parsing into name", some span⟩
  | val => .error ⟨"InvalidInputTypeError", "Invalid input type",
      some val.span⟩

/-- The whole name-parsing collection: first failure wins
(`collect::<Result<Vec<_>, _>>()`). -/
def parseNames (from_utf8 : String → Option Name)
    (from_labels : List (List Nat) → Option Name) (vs : List Value) :
    Except LabeledError (List Name) :=
  vs.mapM (parseName from_utf8 from_labels)

/-- Modelled from the spec: `serde::Protocol::try_from` (crate module `serde`,
not in the core file); decodes a `--protocol` mnemonic, "one of
UDP/TCP/TLS/HTTPS"; an unrecognized mnemonic or a non-string value fails
with a decoding error. -/
def Protocol.tryFrom (v : Value) : Except LabeledError Protocol :=
  match v with
  | .string s span =>
      if s = "udp" then .ok .udp
      else if s = "tcp" then .ok .tcp
      else if s = "tls" then .ok .tls
      else if s = "https" then .ok .https
      else .error ⟨"ProtocolDecodeError", "unrecognized protocol: " ++ s,
        some span⟩
  | v => .error ⟨"ProtocolDecodeError", "protocol flag must be a string",
      some v.span⟩

/-- DNS record type (`trust_dns_proto::rr::RecordType`), the mnemonics the
claims exercise. -/
inductive RecordType where
  | A
  | AAAA
  | MX
  | NS
  | TXT
deriving DecidableEq, Repr

/-- Modelled from the spec: `serde::RType::try_from` (crate module `serde`,
not in the core file); decodes one record-type mnemonic; an invalid mnemonic
or non-string value fails with a decoding error. -/
def RType.tryFrom (v : Value) : Except LabeledError RecordType :=
  match v with
  | .string s span =>
      if s = "a" then .ok .A
      else if s = "aaaa" then .ok .AAAA
      else if s = "mx" then .ok .MX
      else if s = "ns" then .ok .NS
      else if s = "txt" then .ok .TXT
      else .error ⟨"RTypeDecodeError", "unrecognized record type: " ++ s,
        some span⟩
  | v => .error ⟨"RTypeDecodeError", "record type flag must be a string",
      some v.span⟩

/-- DNS class (`trust_dns_proto::rr::DNSClass`). -/
inductive DNSClass where
  | IN
  | CH
  | HS
deriving DecidableEq, Repr

/-- Modelled from the spec: `serde::DNSClass::try_from` (crate module `serde`,
not in the core file); decodes a `--class` mnemonic; an unrecognized mnemonic
or non-string value fails with a decoding error. -/
def DNSClass.tryFrom (v : Value) : Except LabeledError DNSClass :=
  match v with
  | .string s span =>
      if s = "in" then .ok .IN
      else if s = "ch" then .ok .CH
      else if s = "hs" then .ok .HS
      else .error ⟨"DNSClassDecodeError", "unrecognized class: " ++ s,
        some span⟩
  | v => .error ⟨"DNSClassDecodeError", "class flag must be a string",
      some v.span⟩

/-- DNSSEC validation mode (`serde::DnssecMode`). -/
inductive DnssecMode where
  | strict
  | opportunistic
  | disabled
deriving DecidableEq, Repr

/-- Modelled from the spec: `serde::DnssecMode::try_from` (crate module
`serde`, not in the core file); decodes a `--dnssec` mnemonic, "one of
Strict/Opportunistic/Disabled". -/
def DnssecMode.tryFrom (v : Value) : Except LabeledError DnssecMode :=
  match v with
  | .string s span =>
      if s = "strict" then .ok .strict
      else if s = "opportunistic" then .ok .opportunistic
      else if s = "disabled" then .ok .disabled
      else .error ⟨"DnssecModeDecodeError", "unrecognized dnssec mode: " ++ s,
        some span⟩
  | v => .error ⟨"DnssecModeDecodeError", "dnssec flag must be a string",
      some v.span⟩

/-- Server and transport resolution (`Dns::query`, lines 101–138).
`parse_socket_addr` and `parse_ip_addr` stand for the external parsers
`SocketAddr::from_str` and `IpAddr::from_str` (`none` = parse error);
`read_system_conf` stands for
`trust_dns_resolver::system_conf::read_system_conf()` (`.error` = read
failure), to which the source applies `unwrap_or_default()`.  `protocol` is
the already-decoded `--protocol` flag.  Returns the socket address, the
optional flag span, and the transport protocol. -/
def resolveServer (parse_socket_addr : String → Option SocketAddr)
    (parse_ip_addr : String → Option IpAddr)
    (read_system_conf : Except Unit ResolverConf)
    (serverFlag : Option Value) (protocol : Option Protocol) :
    Except LabeledError (SocketAddr × Option Span × Protocol) :=
  match serverFlag with
  | some (.string val span) =>
      match (parse_socket_addr val).orElse
          (fun _ => (parse_ip_addr val).map fun ip => ⟨ip, SERVER_PORT⟩) with
      | some addr => .ok (addr, some span, protocol.getD .udp)
      | none => .error ⟨"InvalidServerAddress", "Invalid server", some span⟩
  | none =>
      let config := read_system_conf.toOption.getD ResolverConf.default
      match config.name_servers with
      | ns :: _ => .ok (ns.socket_addr, none, ns.protocol)
      | [] =>
          let config := ResolverConf.default
          let ns := config.name_servers.head!
          .ok (ns.socket_addr, none, protocol.getD ns.protocol)
  | some val =>
      .error ⟨"InvalidServerAddressInputError",
        "invalid input type for server address", some val.span⟩

/-- Query-type resolution (`Dns::query`, lines 140–150): a list flag decodes
elementwise, a single value decodes alone, absence defaults to
`[AAAA, A]` in that order. -/
def resolveQtypes (typeFlag : Option Value) :
    Except LabeledError (List RecordType) :=
  match typeFlag with
  | some (.list vals _) => vals.mapM RType.tryFrom
  | some val => (RType.tryFrom val).map ([·])
  | none => .ok [.AAAA, .A]

/-- Class resolution (`Dns::query`, lines 152–155): default `IN`. -/
def resolveClass (classFlag : Option Value) : Except LabeledError DNSClass :=
  match classFlag with
  | some val => DNSClass.tryFrom val
  | none => .ok .IN

/-- DNSSEC-mode resolution (`Dns::query`, lines 157–160): default
`Opportunistic`. -/
def resolveDnssec (dnssecFlag : Option Value) :
    Except LabeledError DnssecMode :=
  match dnssecFlag with
  | some val => DnssecMode.tryFrom val
  | none => .ok .opportunistic

/-- `collect::<Result<Vec<_>, _>>()`: keeps all values in order, or the first
error. -/
def collectResults {ε α : Type} : List (Except ε α) → Except ε (List α)
  | [] => .ok []
  | .error e :: _ => .error e
  | .ok a :: rest => (collectResults rest).map (a :: ·)

/-- The dispatcher (`Dns::query`, lines 164–177): builds one future per
(name, qtype) pair by a `flat_map` over names of a `map` over qtypes, joins
them all (`join_all` yields results in construction order), collects, and
wraps any failure as `DNSResponseError`.  `query` stands for the connected
client's `DnsClient::query`; `α` is the raw-response type of the external
library. -/
def dispatchQueries {α : Type} (query : Name → DNSClass → RecordType → Except String α)
    (names : List Name) (qtypes : List RecordType) (dns_class : DNSClass) :
    Except LabeledError (List α) :=
  match collectResults
      (names.flatMap fun name => qtypes.map fun qtype =>
        query name dns_class qtype) with
  | .ok msgs => .ok msgs
  | .error err =>
      .error ⟨"DNSResponseError", "Error in DNS response: " ++ err, none⟩

/-- The flag values of the evaluated call that `Dns::query` reads
(`call.get_flag_value` on `flags::PROTOCOL`, `flags::SERVER`, `flags::TYPE`,
`flags::CLASS`, `flags::DNSSEC`). -/
structure CallFlags where
  protocol : Option Value
  server : Option Value
  qtype : Option Value
  dns_class : Option Value
  dnssec : Option Value

/-- The external primitives `Dns::query` calls, as explicit parameters:
library name parsers, address parsers, the system-configuration reader, the
client constructor (`DnsClient::new`, which may fail with a connection
error), and the client's query operation with raw-response type `α` and
error detail rendered as a string. -/
structure Externals (α : Type) where
  name_from_utf8 : String → Option Name
  name_from_labels : List (List Nat) → Option Name
  parse_socket_addr : String → Option SocketAddr
  parse_ip_addr : String → Option IpAddr
  read_system_conf : Except Unit ResolverConf
  client_new : Except LabeledError Unit
  client_query : Name → DNSClass → RecordType → Except String α

/-- The whole `Dns::query` (lines 41–207), composed in source order: input
resolution, name parsing, `--protocol` decoding, server resolution, query
parameters, client construction, dispatch.  Returns the resolved nameserver
address and protocol together with the raw messages — the data the source
assembles (after per-message serialization by `serde::Message`, outside the
core file) into the output record `{ nameserver: { address, protocol },
messages }`. -/
def queryRun {α : Type} (ext : Externals α) (flags : CallFlags)
    (arg_inputs : List Value) (input : Value) :
    Except LabeledError (SocketAddr × Protocol × List α) := do
  let inputVals ← resolveInput arg_inputs input
  let names ← parseNames ext.name_from_utf8 ext.name_from_labels inputVals
  let protocol ← match flags.protocol with
    | none => pure none
    | some val => (Protocol.tryFrom val).map some
  let (addr, _addr_span, protocol) ← resolveServer ext.parse_socket_addr
      ext.parse_ip_addr ext.read_system_conf flags.server protocol
  let qtypes ← resolveQtypes flags.qtype
  let dns_class ← resolveClass flags.dns_class
  let _dnssec_mode ← resolveDnssec flags.dnssec
  let _ ← ext.client_new
  let messages ← dispatchQueries ext.client_query names qtypes dns_class
  pure (addr, protocol, messages)

/-- The name-major cross product of names and query types: all types for the
first name, then the second, and so on. -/
def crossProduct (names : List Name) (qtypes : List RecordType) :
    List (Name × RecordType) :=
  names.flatMap fun n => qtypes.map fun t => (n, t)

/-- Whether a host value is a `Binary` value. -/
def Value.isBinary : Value → Bool
  | .binary _ _ => true
  | _ => false

/-- The label of a failed result, `none` on success. -/
def errorLabel {α : Type} : Except LabeledError α → Option String
  | .error e => some e.label
  | .ok _ => none

instance {ε α : Type} [DecidableEq ε] [DecidableEq α] :
    DecidableEq (Except ε α) := fun x y =>
  match x, y with
  | .ok a, .ok b =>
      if h : a = b then isTrue (by rw [h])
      else isFalse fun hc => h (Except.ok.inj hc)
  | .error e, .error f =>
      if h : e = f then isTrue (by rw [h])
      else isFalse fun hc => h (Except.error.inj hc)
  | .ok _, .error _ => isFalse fun hc => Except.noConfusion hc
  | .error _, .ok _ => isFalse fun hc => Except.noConfusion hc

/-- C4: for every call whose piped input is present (not `Nothing`) and whose
positional arguments form a non-empty list, input resolution fails with an
error labeled `AmbiguousInputError`. -/
theorem C4_ambiguous_input (arg_inputs : List Value) (input : Value)
    (hpiped : ∀ s, input ≠ Value.nothing s) (hargs : arg_inputs ≠ []) :
    resolveInput arg_inputs input =
      .error ⟨"AmbiguousInputError",
        "Input should either be positional args or piped, but not both",
        some input.span⟩ := by
  have hne : arg_inputs.isEmpty = false := by
    cases arg_inputs with
    | nil => exact absurd rfl hargs
    | cons a as => rfl
  cases input with
  | nothing s => exact absurd rfl (hpiped s)
  | string v s => simp [resolveInput, hne, Value.span]
  | list vs s => simp [resolveInput, hne, Value.span]
  | binary b s => simp [resolveInput, hne, Value.span]
  | other s => simp [resolveInput, hne, Value.span]

/-- Witness for C4 at a concrete call: one positional argument plus a piped
string. -/
theorem C4_ambiguous_input_witness :
    resolveInput [Value.string "example.com" 1] (Value.string "pipe.com" 2) =
      .error ⟨"AmbiguousInputError",
        "Input should either be positional args or piped, but not both",
        some 2⟩ := by
  exact C4_ambiguous_input _ _ (fun s h => Value.noConfusion h) (by simp)

/-- C10: with non-empty positional arguments, `AmbiguousInputError` is
raised for every non-`Nothing` piped value; the content of the piped value
is never inspected, so in particular an empty piped string and an empty
piped list also fail. -/
theorem C10_empty_piped_still_ambiguous (arg_inputs : List Value)
    (hargs : arg_inputs ≠ []) (s1 s2 : Span) :
    (∀ v : Value, (∀ s, v ≠ Value.nothing s) →
        errorLabel (resolveInput arg_inputs v) = some "AmbiguousInputError")
    ∧ resolveInput arg_inputs (Value.string "" s1) =
        .error ⟨"AmbiguousInputError",
          "Input should either be positional args or piped, but not both",
          some s1⟩
    ∧ resolveInput arg_inputs (Value.list [] s2) =
        .error ⟨"AmbiguousInputError",
          "Input should either be positional args or piped, but not both",
          some s2⟩ := by
  have hne : arg_inputs.isEmpty = false := by
    cases arg_inputs with
    | nil => exact absurd rfl hargs
    | cons a as => rfl
  refine ⟨fun v hv => ?_, ?_, ?_⟩
  · cases v with
    | nothing s => exact absurd rfl (hv s)
    | string w s => simp [resolveInput, hne, errorLabel]
    | list vs s => simp [resolveInput, hne, errorLabel]
    | binary b s => simp [resolveInput, hne, errorLabel]
    | other s => simp [resolveInput, hne, errorLabel]
  · simp [resolveInput, hne, Value.span]
  · simp [resolveInput, hne, Value.span]

/-- Witness for C10 at a concrete call: an empty piped string and an empty
piped list are still ambiguous next to a positional argument. -/
theorem C10_empty_piped_still_ambiguous_witness :
    resolveInput [Value.other 0] (Value.string "" 1) =
      .error ⟨"AmbiguousInputError",
        "Input should either be positional args or piped, but not both",
        some 1⟩
    ∧ resolveInput [Value.other 0] (Value.list [] 2) =
      .error ⟨"AmbiguousInputError",
        "Input should either be positional args or piped, but not both",
        some 2⟩ := by
  exact (C10_empty_piped_still_ambiguous [Value.other 0] (by simp) 1 2).2

/-- C6: with the corresponding flags absent, the resolved query parameters
are exactly record types [AAAA, A] in that order, class IN, and DNSSEC mode
Opportunistic. -/
theorem C6_parameter_defaults :
    resolveQtypes none = .ok [RecordType.AAAA, RecordType.A]
    ∧ resolveClass none = .ok DNSClass.IN
    ∧ resolveDnssec none = .ok DnssecMode.opportunistic :=
  ⟨rfl, rfl, rfl⟩

/-- C1: with no `--server` flag: if the system configuration yields at least
one nameserver, its first entry's address and protocol are used and an
explicit `--protocol` flag is ignored (the result does not depend on the
universally quantified flag); if it yields none, the built-in default
configuration's first nameserver is used and an explicit `--protocol` flag
does override that fallback's protocol (`protocol.getD`). -/
theorem C1_server_fallback_precedence
    (psa : String → Option SocketAddr) (pia : String → Option IpAddr)
    (sysConf : ResolverConf) (protocol : Option Protocol) :
    (∀ ns rest, sysConf.name_servers = ns :: rest →
      resolveServer psa pia (.ok sysConf) none protocol =
        .ok (ns.socket_addr, none, ns.protocol))
    ∧ (sysConf.name_servers = [] →
      resolveServer psa pia (.ok sysConf) none protocol =
        .ok (ResolverConf.default.name_servers.head!.socket_addr, none,
          protocol.getD ResolverConf.default.name_servers.head!.protocol)) := by
  constructor
  · intro ns rest h
    simp [resolveServer, Except.toOption, h]
  · intro h
    simp [resolveServer, Except.toOption, h]

/-- Witness for C1: a one-entry system configuration over TCP wins against
`--protocol https`; an empty system configuration falls back to the default
first nameserver with `--protocol https` overriding its UDP. -/
theorem C1_server_fallback_precedence_witness :
    resolveServer (fun _ => none) (fun _ => none)
        (.ok ⟨[⟨⟨.v4 1 1 1 1, 53⟩, .tcp⟩]⟩) none (some .https) =
      .ok (⟨.v4 1 1 1 1, 53⟩, none, .tcp)
    ∧ resolveServer (fun _ => none) (fun _ => none)
        (.ok ⟨[]⟩) none (some .https) =
      .ok (⟨.v4 8 8 8 8, 53⟩, none, .https) := by
  refine ⟨(C1_server_fallback_precedence _ _ _ _).1 _ _ rfl, ?_⟩
  exact (C1_server_fallback_precedence (fun _ => none) (fun _ => none)
    ⟨[]⟩ (some .https)).2 rfl

/-- C9: when reading the system configuration fails (as opposed to
succeeding with zero nameservers), `unwrap_or_default` substitutes the
built-in default configuration, whose nameserver list is non-empty, so the
"system config found" branch applies: the default's first nameserver's
address and protocol are used and an explicit `--protocol` flag is ignored
(the result does not depend on the universally quantified flag). -/
theorem C9_read_failure_takes_found_branch
    (psa : String → Option SocketAddr) (pia : String → Option IpAddr)
    (protocol : Option Protocol) :
    ResolverConf.default.name_servers ≠ []
    ∧ (∀ ns rest, ResolverConf.default.name_servers = ns :: rest →
        resolveServer psa pia (.error ()) none protocol =
          .ok (ns.socket_addr, none, ns.protocol)) := by
  constructor
  · simp [ResolverConf.default]
  · intro ns rest h
    simp [resolveServer, Except.toOption, h]

/-- Witness for C9: on a failed system-configuration read, `--protocol tcp`
is ignored and the default first nameserver's UDP is used. -/
theorem C9_read_failure_takes_found_branch_witness :
    resolveServer (fun _ => none) (fun _ => none) (.error ()) none
        (some .tcp) =
      .ok (⟨.v4 8 8 8 8, 53⟩, none, .udp) := by
  exact (C9_read_failure_takes_found_branch (fun _ => none) (fun _ => none)
    (some .tcp)).2 ⟨⟨.v4 8 8 8 8, 53⟩, .udp⟩ _ rfl

/-- C5: for a string `--server` value: parsed as "host:port" first; on
failure as a bare address with the fixed default port 53; if both parses
fail the operation errors with `InvalidServerAddress`; a non-string value
errors with `InvalidServerAddressInputError`; and the resulting protocol is
the explicit `--protocol` if given, else UDP. -/
theorem C5_explicit_server
    (psa : String → Option SocketAddr) (pia : String → Option IpAddr)
    (conf : Except Unit ResolverConf) (protocol : Option Protocol)
    (val : String) (span : Span) :
    (∀ addr, psa val = some addr →
        resolveServer psa pia conf (some (.string val span)) protocol =
          .ok (addr, some span, protocol.getD .udp))
    ∧ (∀ ip, psa val = none → pia val = some ip →
        resolveServer psa pia conf (some (.string val span)) protocol =
          .ok (⟨ip, 53⟩, some span, protocol.getD .udp))
    ∧ (psa val = none → pia val = none →
        resolveServer psa pia conf (some (.string val span)) protocol =
          .error ⟨"InvalidServerAddress", "Invalid server", some span⟩)
    ∧ (∀ v : Value, (∀ s sp, v ≠ Value.string s sp) →
        resolveServer psa pia conf (some v) protocol =
          .error ⟨"InvalidServerAddressInputError",
            "invalid input type for server address", some v.span⟩) := by
  refine ⟨fun addr h => ?_, fun ip h1 h2 => ?_, fun h1 h2 => ?_,
    fun v hv => ?_⟩
  · simp [resolveServer, h, Option.orElse]
  · simp [resolveServer, h1, h2, Option.orElse, SERVER_PORT]
  · simp [resolveServer, h1, h2, Option.orElse]
  · cases v with
    | nothing s => simp [resolveServer, Value.span]
    | string w s => exact absurd rfl (hv w s)
    | list vs s => simp [resolveServer, Value.span]
    | binary b s => simp [resolveServer, Value.span]
    | other s => simp [resolveServer, Value.span]

/-- Witness for C5: the four concrete outcomes — a "host:port" parse with
`--protocol tcp`, a bare-address parse getting port 53 and UDP, a double
parse failure, and a non-string flag value. -/
theorem C5_explicit_server_witness :
    resolveServer (fun _ => some ⟨.v4 1 2 3 4, 8053⟩) (fun _ => none)
        (.error ()) (some (.string "1.2.3.4:8053" 0)) (some .tcp) =
      .ok (⟨.v4 1 2 3 4, 8053⟩, some 0, .tcp)
    ∧ resolveServer (fun _ => none) (fun _ => some (.v4 203 0 113 5))
        (.error ()) (some (.string "203.0.113.5" 1)) none =
      .ok (⟨.v4 203 0 113 5, 53⟩, some 1, .udp)
    ∧ resolveServer (fun _ => none) (fun _ => none)
        (.error ()) (some (.string "garbage" 2)) none =
      .error ⟨"InvalidServerAddress", "Invalid server", some 2⟩
    ∧ resolveServer (fun _ => none) (fun _ => none)
        (.error ()) (some (.other 7)) none =
      .error ⟨"InvalidServerAddressInputError",
        "invalid input type for server address", some 7⟩ := by
  refine ⟨(C5_explicit_server _ _ _ _ _ _).1 _ rfl,
    (C5_explicit_server _ _ _ _ _ _).2.1 _ rfl rfl,
    (C5_explicit_server (fun _ => none) (fun _ => none) (.error ())
      none "garbage" 2).2.2.1 rfl rfl,
    (C5_explicit_server (fun _ => none) (fun _ => none) (.error ())
      none "" 0).2.2.2 _ (fun s sp h => Value.noConfusion h)⟩

/-- The futures list built by the dispatcher's `flat_map`/`map` is the map
of the client query over the name-major cross product. -/
theorem dispatch_futures_eq_cross {α : Type}
    (query : Name → DNSClass → RecordType → Except String α)
    (names : List Name) (qtypes : List RecordType) (dns_class : DNSClass) :
    (names.flatMap fun name => qtypes.map fun qtype =>
        query name dns_class qtype)
      = (crossProduct names qtypes).map fun p => query p.1 dns_class p.2 := by
  induction names with
  | nil => rfl
  | cons n ns ih =>
      simp only [crossProduct, List.flatMap_cons, List.map_append,
        List.map_map] at *
      simp [ih, Function.comp]

/-- `collect::<Result<_, _>>()` on an elementwise-successful mapped list
returns the mapped successes in order. -/
theorem collectResults_map_ok {ε α β : Type} (g : β → Except ε α)
    (f : β → α) (l : List β) (h : ∀ b ∈ l, g b = .ok (f b)) :
    collectResults (l.map g) = .ok (l.map f) := by
  induction l with
  | nil => rfl
  | cons b bs ih =>
      have hb := h b (List.mem_cons_self b bs)
      have hrest : ∀ x ∈ bs, g x = .ok (f x) := fun x hx =>
        h x (List.mem_cons_of_mem _ hx)
      simp [collectResults, hb, ih hrest, Except.map]

/-- `collect::<Result<_, _>>()` fails whenever some element failed. -/
theorem collectResults_error {ε α : Type} (l : List (Except ε α))
    (h : ∃ x ∈ l, ∃ e, x = .error e) :
    ∃ e, collectResults l = .error e := by
  induction l with
  | nil => simp at h
  | cons x xs ih =>
      cases x with
      | error e0 => exact ⟨e0, rfl⟩
      | ok a =>
          obtain ⟨y, hy, e, he⟩ := h
          rcases List.mem_cons.mp hy with h1 | h2
          · rw [h1] at he
            exact absurd he (fun hc => Except.noConfusion hc)
          · obtain ⟨e1, hc⟩ := ih ⟨y, h2, e, he⟩
            exact ⟨e1, by simp [collectResults, hc, Except.map]⟩

/-- C2: if any one of the dispatched queries fails, the whole dispatch fails
with a single error labeled `DNSResponseError` and returns no messages at
all — there is no partial-success result. -/
theorem C2_all_or_nothing {α : Type}
    (query : Name → DNSClass → RecordType → Except String α)
    (names : List Name) (qtypes : List RecordType) (dns_class : DNSClass)
    (hfail : ∃ p ∈ crossProduct names qtypes,
        ∃ e, query p.1 dns_class p.2 = .error e) :
    errorLabel (dispatchQueries query names qtypes dns_class) =
      some "DNSResponseError"
    ∧ ∀ msgs, dispatchQueries query names qtypes dns_class ≠ .ok msgs := by
  obtain ⟨p, hp, e, he⟩ := hfail
  have hmem : (Except.error e : Except String α) ∈
      ((crossProduct names qtypes).map fun q => query q.1 dns_class q.2) := by
    rw [← he]
    exact List.mem_map_of_mem _ hp
  obtain ⟨e1, hc⟩ := collectResults_error _ ⟨_, hmem, e, rfl⟩
  have hd : dispatchQueries query names qtypes dns_class =
      .error ⟨"DNSResponseError", "Error in DNS response: " ++ e1, none⟩ := by
    rw [dispatchQueries, dispatch_futures_eq_cross, hc]
  rw [hd]
  exact ⟨rfl, fun msgs hc => Except.noConfusion hc⟩

/-- Witness for C2: one name, one type, a client whose query always fails:
the dispatch result carries the `DNSResponseError` label. -/
theorem C2_all_or_nothing_witness :
    errorLabel (dispatchQueries
        (fun _ _ _ => (.error "unreachable" : Except String Nat))
        [[[1]]] [.A] .IN) = some "DNSResponseError" := by
  exact (C2_all_or_nothing _ _ _ _
    ⟨([[1]], .A), by simp [crossProduct], "unreachable", rfl⟩).1

/-- The name-major cross product has one entry per (name, type) pair. -/
theorem crossProduct_length (names : List Name) (qtypes : List RecordType) :
    (crossProduct names qtypes).length = names.length * qtypes.length := by
  induction names with
  | nil => simp [crossProduct]
  | cons n ns ih =>
      simp only [crossProduct, List.flatMap_cons, List.length_append,
        List.length_map, List.length_cons] at *
      rw [ih]
      ring

/-- C3: the dispatcher issues exactly one query per (name, type) pair — its
futures list is the map of the client query over the name-major cross
product (all types for the first name, then the second, …), whose length is
`names.length * qtypes.length` — and on full success the returned messages
are the per-pair results in that same construction order. -/
theorem C3_cross_product_order {α : Type}
    (query : Name → DNSClass → RecordType → Except String α)
    (names : List Name) (qtypes : List RecordType) (dns_class : DNSClass)
    (f : Name × RecordType → α)
    (hok : ∀ p ∈ crossProduct names qtypes,
        query p.1 dns_class p.2 = .ok (f p)) :
    (names.flatMap fun name => qtypes.map fun qtype =>
        query name dns_class qtype)
      = ((crossProduct names qtypes).map fun p => query p.1 dns_class p.2)
    ∧ (crossProduct names qtypes).length = names.length * qtypes.length
    ∧ dispatchQueries query names qtypes dns_class =
        .ok ((crossProduct names qtypes).map f) := by
  refine ⟨dispatch_futures_eq_cross query names qtypes dns_class,
    crossProduct_length names qtypes, ?_⟩
  rw [dispatchQueries, dispatch_futures_eq_cross,
    collectResults_map_ok _ f _ hok]

/-- Witness for C3: names [n1, n2] with types [A, AAAA] yield exactly the
four results n1/A, n1/AAAA, n2/A, n2/AAAA in that order. -/
theorem C3_cross_product_order_witness :
    dispatchQueries (fun n _ t => (.ok (n, t) : Except String (Name × RecordType)))
        [[[1]], [[2]]] [.A, .AAAA] .IN =
      .ok [([[1]], .A), ([[1]], .AAAA), ([[2]], .A), ([[2]], .AAAA)] := by
  have h := (C3_cross_product_order
    (fun n _ t => (.ok (n, t) : Except String (Name × RecordType)))
    [[[1]], [[2]]] [.A, .AAAA] .IN (fun p => p) (fun p _ => rfl)).2.2
  simpa [crossProduct] using h

/-- The label collection stops at the first non-binary element with
`InvalidNameError` at that element's span. -/
theorem collectBinaryLabels_first_non_binary (pre : List Value) (v : Value)
    (rest : List Value) (hpre : ∀ u ∈ pre, u.isBinary = true)
    (hv : v.isBinary = false) :
    collectBinaryLabels (pre ++ v :: rest) =
      .error ⟨"InvalidNameError", "Invalid input type for name",
        some v.span⟩ := by
  induction pre with
  | nil =>
      cases v with
      | binary b s => simp [Value.isBinary] at hv
      | nothing s => rfl
      | string w s => rfl
      | list vs s => rfl
      | other s => rfl
  | cons u us ih =>
      have hu := hpre u (List.mem_cons_self u us)
      have htail := ih fun x hx => hpre x (List.mem_cons_of_mem _ hx)
      cases u with
      | binary b s => simp [collectBinaryLabels, htail, Except.map]
      | nothing s => simp [Value.isBinary] at hu
      | string w s => simp [Value.isBinary] at hu
      | list vs s => simp [Value.isBinary] at hu
      | other s => simp [Value.isBinary] at hu

/-- C7: for every name input value — a string whose parse fails yields
`InvalidNameError`; a list whose elements are not all binary fails with
`InvalidNameError` (at the first offending element); a list of binary
labels whose assembled content is invalid as a name fails with
`NameParseError`; and a value of any other kind fails with
`InvalidInputTypeError`. -/
theorem C7_name_input_errors (fu : String → Option Name)
    (fl : List (List Nat) → Option Name) :
    (∀ s span, fu s = none →
        parseName fu fl (.string s span) =
          .error ⟨"InvalidNameError", "Error parsing name", some span⟩)
    ∧ (∀ pre v rest span, (∀ u ∈ pre, u.isBinary = true) →
        v.isBinary = false →
        parseName fu fl (.list (pre ++ v :: rest) span) =
          .error ⟨"InvalidNameError", "Invalid input type for name",
            some v.span⟩)
    ∧ (∀ vals span labels, collectBinaryLabels vals = .ok labels →
        fl labels = none →
        parseName fu fl (.list vals span) =
          .error ⟨"NameParseError", "Error parsing into name", some span⟩)
    ∧ (∀ v : Value, (∀ s sp, v ≠ Value.string s sp) →
        (∀ vs sp, v ≠ Value.list vs sp) →
        parseName fu fl v =
          .error ⟨"InvalidInputTypeError", "Invalid input type",
            some v.span⟩) := by
  refine ⟨fun s span h => ?_, fun pre v rest span hpre hv => ?_,
    fun vals span labels h1 h2 => ?_, fun v hs hl => ?_⟩
  · simp [parseName, h]
  · simp [parseName, collectBinaryLabels_first_non_binary pre v rest hpre hv]
  · simp [parseName, h1, h2]
  · cases v with
    | nothing s => simp [parseName, Value.span]
    | string w s => exact absurd rfl (hs w s)
    | list vs s => exact absurd rfl (hl vs s)
    | binary b s => simp [parseName, Value.span]
    | other s => simp [parseName, Value.span]

/-- Witness for C7: the four concrete failure modes, with library parsers
that reject everything. -/
theorem C7_name_input_errors_witness :
    parseName (fun _ => none) (fun _ => none) (.string "bad name" 0) =
      .error ⟨"InvalidNameError", "Error parsing name", some 0⟩
    ∧ parseName (fun _ => none) (fun _ => none)
        (.list [.binary [1] 1, .string "x" 2] 3) =
      .error ⟨"InvalidNameError", "Invalid input type for name", some 2⟩
    ∧ parseName (fun _ => none) (fun _ => none) (.list [.binary [1] 4] 5) =
      .error ⟨"NameParseError", "Error parsing into name", some 5⟩
    ∧ parseName (fun _ => none) (fun _ => none) (.other 6) =
      .error ⟨"InvalidInputTypeError", "Invalid input type", some 6⟩ := by
  refine ⟨(C7_name_input_errors _ _).1 "bad name" 0 rfl, ?_, ?_, ?_⟩
  · exact (C7_name_input_errors (fun _ => none) (fun _ => none)).2.1
      [.binary [1] 1] (.string "x" 2) [] 3 (by simp [Value.isBinary]) rfl
  · exact (C7_name_input_errors (fun _ => none) (fun _ => none)).2.2.1
      [.binary [1] 4] 5 [[1]] rfl rfl
  · exact (C7_name_input_errors (fun _ => none) (fun _ => none)).2.2.2
      (.other 6) (fun s sp h => Value.noConfusion h)
      (fun vs sp h => Value.noConfusion h)

/-- C8: an unrecognized `--protocol` value fails the invocation with the
decoding error even in the configuration where the flag would subsequently
be ignored (no `--server`, system configuration with at least one
nameserver), because the flag is decoded before server resolution; the
hypotheses only require the earlier stages (input resolution and name
parsing) to succeed. -/
theorem C8_protocol_decoded_before_server {α : Type} (ext : Externals α)
    (flags : CallFlags) (arg_inputs : List Value) (input : Value)
    (inputVals : List Value) (names : List Name) (v : Value)
    (e : LabeledError)
    (hin : resolveInput arg_inputs input = .ok inputVals)
    (hnames : parseNames ext.name_from_utf8 ext.name_from_labels inputVals =
      .ok names)
    (hflag : flags.protocol = some v)
    (hdecode : Protocol.tryFrom v = .error e)
    (hserver : flags.server = none)
    (hconf : ∃ conf ns rest, ext.read_system_conf = .ok conf ∧
        conf.name_servers = ns :: rest) :
    queryRun ext flags arg_inputs input = .error e := by
  simp [queryRun, hin, hnames, hflag, hdecode, Bind.bind, Except.bind,
    Except.map]

/-- Witness for C8: `--protocol bogus` with no `--server`, a one-entry
system configuration, and a client that would succeed: the invocation fails
with the decoding error. -/
theorem C8_protocol_decoded_before_server_witness :
    queryRun
        (⟨fun _ => some [[1]], fun _ => some [[1]], fun _ => none,
          fun _ => none, .ok ⟨[⟨⟨.v4 1 1 1 1, 53⟩, .udp⟩]⟩, .ok (),
          fun _ _ _ => .ok (0 : Nat)⟩ : Externals Nat)
        ⟨some (.string "bogus" 0), none, none, none, none⟩
        [] (.string "example.com" 1) =
      .error ⟨"ProtocolDecodeError", "unrecognized protocol: bogus",
        some 0⟩ := by
  exact C8_protocol_decoded_before_server _ _ _ _
    [Value.string "example.com" 1] [[[1]]] (Value.string "bogus" 0) _
    rfl rfl rfl (by decide) rfl
    ⟨_, ⟨⟨.v4 1 1 1 1, 53⟩, .udp⟩, [], rfl, rfl⟩

end DnsPlugin
